import Mathlib

/-!
Verification development for the i2c_t3 Teensy I2C driver (src/i2c_t3.cpp,
src/i2c_t3.h).  The definitions below are a shallow embedding of the Master-mode
data model and operations of the driver: the `i2cStruct` record mirrors the
`struct i2cStruct` of the source, registers are modelled by their last written
value plus an ordered trace of hardware events (`Event`), and hardware
responses (status-flag reads, received data bytes, bus-busy samples, elapsed
time checks) are supplied as explicit inputs.  Loop constructs are translated
with an explicit fuel argument chosen so that fuel exhaustion coincides with
the own exit condition of the source loop.
-/

-- ------------------------------------------------------------------------
-- Register bit constants (Kinetis K20/KL26 I2C register layout, used by the
-- source through kinetis.h).
-- ------------------------------------------------------------------------

def I2C_C1_IICEN : Nat := 0x80
def I2C_C1_IICIE : Nat := 0x40
def I2C_C1_MST : Nat := 0x20
def I2C_C1_TX : Nat := 0x10
def I2C_C1_TXAK : Nat := 0x08
def I2C_C1_RSTA : Nat := 0x04
def I2C_C1_DMAEN : Nat := 0x01

def I2C_S_TCF : Nat := 0x80
def I2C_S_BUSY : Nat := 0x20
def I2C_S_ARBL : Nat := 0x10
def I2C_S_IICIF : Nat := 0x02
def I2C_S_RXAK : Nat := 0x01

/-- Tx buffer capacity, `#define I2C_TX_BUFFER_LENGTH 259` in i2c_t3.h. -/
def I2C_TX_BUFFER_LENGTH : Nat := 259
/-- Rx buffer capacity, `#define I2C_RX_BUFFER_LENGTH 259` in i2c_t3.h. -/
def I2C_RX_BUFFER_LENGTH : Nat := 259

-- ------------------------------------------------------------------------
-- Enumerations from i2c_t3.h.
-- ------------------------------------------------------------------------

inductive i2c_op_mode
  | I2C_OP_MODE_IMM
  | I2C_OP_MODE_ISR
  | I2C_OP_MODE_DMA
deriving DecidableEq, Repr

inductive i2c_mode
  | I2C_MASTER
  | I2C_SLAVE
deriving DecidableEq, Repr

inductive i2c_pins
  | I2C_PINS_18_19
  | I2C_PINS_16_17
  | I2C_PINS_22_23
  | I2C_PINS_29_30
  | I2C_PINS_26_31
deriving DecidableEq, Repr

inductive i2c_pullup
  | I2C_PULLUP_EXT
  | I2C_PULLUP_INT
deriving DecidableEq, Repr

inductive i2c_stop
  | I2C_NOSTOP
  | I2C_STOP
deriving DecidableEq, Repr

inductive i2c_status
  | I2C_WAITING
  | I2C_SENDING
  | I2C_SEND_ADDR
  | I2C_RECEIVING
  | I2C_TIMEOUT
  | I2C_ADDR_NAK
  | I2C_DATA_NAK
  | I2C_ARB_LOST
  | I2C_BUF_OVF
  | I2C_SLAVE_TX
  | I2C_SLAVE_RX
deriving DecidableEq, Repr

inductive i2c_dma_state
  | I2C_DMA_OFF
  | I2C_DMA_ADDR
  | I2C_DMA_BULK
  | I2C_DMA_LAST
deriving DecidableEq, Repr

open i2c_op_mode i2c_mode i2c_pins i2c_pullup i2c_stop i2c_status i2c_dma_state

-- ------------------------------------------------------------------------
-- Hardware event trace.  Each modelled operation returns, besides its result
-- state, the ordered list of register / pin operations it performed.  Reads
-- of the status register S are hardware inputs and are passed as arguments
-- rather than traced.
-- ------------------------------------------------------------------------

inductive Event
  | writeC1 (v : Nat)
  | writeS (v : Nat)
  | writeD (v : Nat)
  | readD
  | pinModeEv (pin : Nat) (mode : Nat)
  | digitalWriteEv (pin : Nat) (high : Bool)
  | pinConfigureI2C (pins : i2c_pins) (pullup : i2c_pullup)
deriving DecidableEq, Repr

/-- Driver state for one bus instance, mirroring `struct i2cStruct`.  The two
byte buffers are modelled as total functions `Nat → Nat` (the C arrays plus
the surrounding memory, so that out-of-bounds writes would be observable);
register C1 is modelled by its last written value. -/
structure i2cStruct where
  C1 : Nat
  rxBuffer : Nat → Nat
  rxBufferIndex : Nat
  rxBufferLength : Nat
  txBuffer : Nat → Nat
  txBufferIndex : Nat
  txBufferLength : Nat
  opMode : i2c_op_mode
  currentMode : i2c_mode
  currentPins : i2c_pins
  currentPullup : i2c_pullup
  currentStop : i2c_stop
  currentStatus : i2c_status
  reqCount : Nat
  timeoutRxNAK : Bool
  activeDMA : i2c_dma_state
  writeError : Bool
  defTimeout : Nat

-- ------------------------------------------------------------------------
-- write (single byte form), i2c_t3.cpp lines 1156-1165.
-- ------------------------------------------------------------------------

/-- `size_t i2c_t3::write(uint8_t data)`: append one byte to the Tx buffer if
there is room, otherwise set the Stream write-error flag and store nothing. -/
def write (st : i2cStruct) (data : Nat) : Nat × i2cStruct :=
  if st.txBufferLength < I2C_TX_BUFFER_LENGTH then
    (1, { st with txBuffer := Function.update st.txBuffer st.txBufferLength data,
                  txBufferLength := st.txBufferLength + 1 })
  else
    (0, { st with writeError := true })

/-- Byte-copy loop of the array `write` form: copy `q` bytes from `src`
(starting at `srcIdx`) into `buf` starting at `destIdx`. -/
def copyBytes (buf : Nat → Nat) (destIdx : Nat) (src : Nat → Nat) (srcIdx : Nat) :
    Nat → (Nat → Nat)
  | 0 => buf
  | q + 1 => copyBytes (Function.update buf destIdx (src srcIdx)) (destIdx + 1) src (srcIdx + 1) q

/-- `size_t i2c_t3::write(const uint8_t* data, size_t quantity)`: append up to
`quantity` bytes, truncating to the available space (and setting the
write-error flag) if needed; return the number of bytes stored. -/
def write_array (st : i2cStruct) (data : Nat → Nat) (quantity : Nat) : Nat × i2cStruct :=
  if st.txBufferLength < I2C_TX_BUFFER_LENGTH then
    let avail := I2C_TX_BUFFER_LENGTH - st.txBufferLength
    let q := if quantity > avail then avail else quantity
    let st1 := if quantity > avail then { st with writeError := true } else st
    (q, { st1 with txBuffer := copyBytes st1.txBuffer st1.txBufferLength data 0 q,
                   txBufferLength := st1.txBufferLength + q })
  else
    (0, { st with writeError := true })

-- ------------------------------------------------------------------------
-- getError, i2c_t3.cpp lines 1080-1094.
-- ------------------------------------------------------------------------

/-- `uint8_t i2c_t3::getError(void)`: map the current status (with priority
over the Stream write-error flag) to the stable Arduino error code. -/
def getError (st : i2cStruct) : Nat :=
  match st.currentStatus with
  | I2C_BUF_OVF => 1
  | I2C_ADDR_NAK => 2
  | I2C_DATA_NAK => 3
  | I2C_ARB_LOST => 4
  | I2C_TIMEOUT => 4
  | _ => if st.writeError then 1 else 0

-- ------------------------------------------------------------------------
-- done_, i2c_t3.cpp lines 1101-1109.
-- ------------------------------------------------------------------------

/-- `uint8_t i2c_t3::done_`: 1 when the current status is a stopped state. -/
def done_ (st : i2cStruct) : Bool :=
  st.currentStatus = I2C_WAITING ||
  st.currentStatus = I2C_ADDR_NAK ||
  st.currentStatus = I2C_DATA_NAK ||
  st.currentStatus = I2C_ARB_LOST ||
  st.currentStatus = I2C_TIMEOUT ||
  st.currentStatus = I2C_BUF_OVF

/-- `uint8_t i2c_t3::finish_`, i2c_t3.cpp lines 1118-1147, modelled under the
assumption that no concurrent interrupt activity changes the state while the
routine busy-waits (in particular this covers the immediate operating mode and
any call made when the status is already a stopped state).  The wait loop then
exits at once when `done_` holds and otherwise runs until the timeout elapses,
after which an in-progress status is rewritten to `I2C_TIMEOUT`.  Returns 1
iff the final status is `I2C_WAITING`. -/
def finish_ (st : i2cStruct) : Nat × i2cStruct :=
  let st1 :=
    if st.currentStatus = I2C_SENDING ∨ st.currentStatus = I2C_SEND_ADDR ∨
       st.currentStatus = I2C_RECEIVING then
      { st with currentStatus := I2C_TIMEOUT }
    else st
  (if st1.currentStatus = I2C_WAITING then 1 else 0, st1)

-- ------------------------------------------------------------------------
-- setOpMode_, i2c_t3.cpp lines 241-312.
-- ------------------------------------------------------------------------

/-- `uint8_t i2c_t3::setOpMode_`: refuse (returning 0, with no state change)
when the bus-busy flag is set; otherwise reset the controller, force ISR mode
for slaves, and install the requested operating mode.  The NVIC/DMA-channel
setup is external; `dmaChannelAvail` tells whether a DMA channel could be
allocated (when false the source reverts to ISR mode). -/
def setOpMode_ (st : i2cStruct) (busBusy : Bool) (dmaChannelAvail : Bool)
    (opMode : i2c_op_mode) : Nat × i2cStruct × List Event :=
  if busBusy then (0, st, [])
  else
    let st1 := { st with C1 := I2C_C1_IICEN }
    let evs := [Event.writeC1 I2C_C1_IICEN, Event.writeS (I2C_S_IICIF ||| I2C_S_ARBL)]
    let opMode1 := if st1.currentMode = I2C_SLAVE then I2C_OP_MODE_ISR else opMode
    if opMode1 = I2C_OP_MODE_IMM then
      (1, { st1 with opMode := I2C_OP_MODE_IMM }, evs)
    else if opMode1 = I2C_OP_MODE_DMA then
      if dmaChannelAvail then
        (1, { st1 with opMode := I2C_OP_MODE_DMA, activeDMA := I2C_DMA_OFF }, evs)
      else
        (1, { st1 with opMode := I2C_OP_MODE_ISR }, evs)
    else
      (1, { st1 with opMode := I2C_OP_MODE_ISR }, evs)

-- ------------------------------------------------------------------------
-- resetBus_, i2c_t3.cpp lines 728-776.
-- ------------------------------------------------------------------------

/-- SDA pin number for each pin option (the `switch(i2c->currentPins)` of
`resetBus_`). -/
def i2c_pins_sda : i2c_pins → Nat
  | I2C_PINS_18_19 => 18
  | I2C_PINS_16_17 => 17
  | I2C_PINS_22_23 => 23
  | I2C_PINS_29_30 => 30
  | I2C_PINS_26_31 => 31

/-- SCL pin number for each pin option. -/
def i2c_pins_scl : i2c_pins → Nat
  | I2C_PINS_18_19 => 19
  | I2C_PINS_16_17 => 16
  | I2C_PINS_22_23 => 22
  | I2C_PINS_29_30 => 29
  | I2C_PINS_26_31 => 26

/-- SCL toggle loop of `resetBus_`:
`while(digitalRead(sda) == 0 && count++ < 10) { ... toggle SCL ... }`.
`sdaRead i` is the SDA sample at the i-th check (`true` = line released).
Returns the number of toggle cycles performed and the pin events.  Fuel is
passed as 10 at the entry call; it runs out exactly when `count` reaches 10,
where the own bound of the source loop also fails. -/
def resetBusLoop (scl : Nat) (sdaRead : Nat → Bool) : Nat → Nat → Nat × List Event
  | 0, _ => (0, [])
  | fuel + 1, count =>
    if sdaRead count = false ∧ count < 10 then
      let r := resetBusLoop scl sdaRead fuel (count + 1)
      (r.1 + 1, Event.digitalWriteEv scl false :: Event.digitalWriteEv scl true :: r.2)
    else (0, [])

/-- `void i2c_t3::resetBus_`: drive SCL as a digital output, toggle it while
SDA reads low (bounded), then reset the status to `I2C_WAITING` and restore
the pins to I2C peripheral function.  Returns the state, the pin-event trace
and the number of SCL toggle cycles performed.  The source returns `void` (no
success/failure indication). -/
def resetBus_ (st : i2cStruct) (sdaRead : Nat → Bool) : i2cStruct × List Event × Nat :=
  let sda := i2c_pins_sda st.currentPins
  let scl := i2c_pins_scl st.currentPins
  if sda ≠ 0 ∧ scl ≠ 0 then
    let pre := [Event.pinModeEv sda (if st.currentPullup = I2C_PULLUP_EXT then 0 else 2),
                Event.digitalWriteEv scl true,
                Event.pinModeEv scl 1]
    let r := resetBusLoop scl sdaRead 10 0
    ({ st with currentStatus := I2C_WAITING },
     pre ++ r.2 ++ [Event.pinConfigureI2C st.currentPins st.currentPullup],
     r.1)
  else (st, [], 0)

-- ------------------------------------------------------------------------
-- acquireBus_, i2c_t3.cpp lines 649-719.
-- ------------------------------------------------------------------------

/-- Hardware/environment inputs consumed by `acquireBus_`: `busyPolls` is the
sequence of bus-busy flag samples taken while the timeout had not yet elapsed
(its exhaustion models the timeout deadline passing); `sdaAfterReset` feeds
the auto-retry `resetBus_` call; `busyAfterReset` is the bus-busy sample of
the retry attempt; the two priorities drive the ISR/DMA priority-escalation
check (`nvic_execution_priority()` and the I2C IRQ priority). -/
structure AcqEnv where
  busyPolls : List Bool
  sdaAfterReset : Nat → Bool
  busyAfterReset : Bool
  currPriority : Nat
  irqPriority : Nat

/-- Busy-poll loop of `acquireBus_`: scan the samples, returning `true` as
soon as a not-busy sample is seen (the source then claims the bus and
breaks); an exhausted list means the timeout elapsed with the bus busy. -/
def acquireBusPoll : List Bool → Bool
  | [] => false
  | busy :: rest => if busy = false then true else acquireBusPoll rest

/-- `uint8_t i2c_t3::acquireBus_`: returns
`(ret, forceImm, state, events)` with `ret` 1 on success and 0 on failure.
Already-master contexts issue a repeated START directly; otherwise the busy
flag is polled until clear or timeout, with one `resetBus_`-and-retry attempt
(the compiled-in `I2C_AUTO_RETRY` option) before failing with status
`I2C_TIMEOUT`.  On success in ISR/DMA mode the priority check either forces
immediate mode (caller priority at ceiling) or escalates the IRQ priority
(an NVIC side effect, not traced). -/
def acquireBus_ (st : i2cStruct) (env : AcqEnv) : Nat × Bool × i2cStruct × List Event :=
  let prioCheck : Bool :=
    (st.opMode = I2C_OP_MODE_ISR || st.opMode = I2C_OP_MODE_DMA) &&
    env.currPriority ≤ env.irqPriority && env.currPriority < 16
  if st.C1 &&& I2C_C1_MST ≠ 0 then
    -- we are already the bus master, so send a repeated start
    (1, prioCheck,
     { st with C1 := I2C_C1_IICEN ||| I2C_C1_MST ||| I2C_C1_RSTA ||| I2C_C1_TX },
     [Event.writeC1 (I2C_C1_IICEN ||| I2C_C1_MST ||| I2C_C1_RSTA ||| I2C_C1_TX)])
  else
    if acquireBusPoll env.busyPolls then
      -- become the bus master in transmit mode (send start)
      (1, prioCheck,
       { st with currentMode := I2C_MASTER, C1 := I2C_C1_IICEN ||| I2C_C1_MST ||| I2C_C1_TX },
       [Event.writeC1 (I2C_C1_IICEN ||| I2C_C1_MST ||| I2C_C1_TX)])
    else
      -- I2C_AUTO_RETRY: reset bus and try one last time
      let r := resetBus_ st env.sdaAfterReset
      if env.busyAfterReset = false then
        (1, prioCheck,
         { r.1 with currentMode := I2C_MASTER, C1 := I2C_C1_IICEN ||| I2C_C1_MST ||| I2C_C1_TX },
         r.2.1 ++ [Event.writeC1 (I2C_C1_IICEN ||| I2C_C1_MST ||| I2C_C1_TX)])
      else
        (0, false, { r.1 with currentStatus := I2C_TIMEOUT }, r.2.1)

-- ------------------------------------------------------------------------
-- sendTransmission_, i2c_t3.cpp lines 822-911.
-- ------------------------------------------------------------------------

/-- Hardware responses for one iteration of the immediate-mode transmit loop:
`timeOk` is the `timeout == 0 || deltaT < timeout` sample at the loop test,
`arbl`/`rxak` the corresponding status-register flags after the byte. -/
structure TxPoll where
  timeOk : Bool
  arbl : Bool
  rxak : Bool

/-- Immediate-mode byte loop of `sendTransmission_`
(`for(idx=0; idx < txBufferLength && (timeout == 0 || deltaT < timeout); idx++)`).
Returns the state, the event trace and the final value of `idx`.  Fuel is
passed as `txBufferLength` at the entry call (the loop body runs at most that
many times); fuel exhaustion coincides with the `idx < txBufferLength` guard
failing, where the result is the same loop-exit result. -/
def sendTransmissionLoop (polls : Nat → TxPoll) : Nat → i2cStruct → Nat →
    i2cStruct × List Event × Nat
  | 0, st, idx => (st, [], idx)
  | fuel + 1, st, idx =>
    if idx < st.txBufferLength ∧ (polls idx).timeOk = true then
      -- send data, wait for done (i2c_wait_ clears IICIF), read status
      let ev0 := [Event.writeD (st.txBuffer idx), Event.writeS I2C_S_IICIF]
      if (polls idx).arbl = true then
        ({ st with currentStatus := I2C_ARB_LOST, C1 := I2C_C1_IICEN },
         ev0 ++ [Event.writeC1 I2C_C1_IICEN, Event.writeS I2C_S_ARBL], idx)
      else if (polls idx).rxak = true then
        ({ st with currentStatus := if idx = 0 then I2C_ADDR_NAK else I2C_DATA_NAK,
                   C1 := I2C_C1_IICEN },
         ev0 ++ [Event.writeC1 I2C_C1_IICEN], idx)
      else
        let r := sendTransmissionLoop polls fuel st (idx + 1)
        (r.1, ev0 ++ r.2.1, r.2.2)
    else (st, [], idx)

/-- `void i2c_t3::sendTransmission_`: start (immediate mode: perform) a Master
Transmit of the Tx buffer.  `env` feeds the bus acquisition, `polls` the
immediate-mode loop.  In ISR/DMA mode the address byte is written and
interrupts enabled; progress then happens in `i2c_isr_handler`. -/
def sendTransmission_ (st : i2cStruct) (sendStop : i2c_stop) (env : AcqEnv)
    (polls : Nat → TxPoll) : i2cStruct × List Event :=
  -- exit immediately if sending 0 bytes
  if st.txBufferLength = 0 then (st, [])
  else
    -- clear the status flags
    let ev0 := [Event.writeS (I2C_S_IICIF ||| I2C_S_ARBL)]
    -- try to take control of the bus
    let acq := acquireBus_ st env
    if acq.1 = 0 then (acq.2.2.1, ev0 ++ acq.2.2.2)
    else
      let forceImm := acq.2.1
      let st1 := acq.2.2.1
      let evA := acq.2.2.2
      if st1.opMode = I2C_OP_MODE_IMM ∨ forceImm = true then
        -- Immediate mode - blocking
        let st2 := { st1 with currentStatus := I2C_SENDING, currentStop := sendStop }
        let r := sendTransmissionLoop polls st2.txBufferLength st2 0
        let st3 := r.1
        let idx := r.2.2
        -- Set final status
        let st4 := { st3 with currentStatus :=
          if idx < st3.txBufferLength then I2C_TIMEOUT else I2C_WAITING }
        -- send STOP if configured
        let finalC1 := if st4.currentStop = I2C_STOP then I2C_C1_IICEN
                       else I2C_C1_IICEN ||| I2C_C1_MST ||| I2C_C1_TX
        ({ st4 with C1 := finalC1 },
         ev0 ++ evA ++ r.2.1 ++ [Event.writeC1 finalC1])
      else
        -- ISR/DMA mode - non-blocking: send target addr and enable interrupts
        let st2 := { st1 with currentStatus := I2C_SENDING, currentStop := sendStop,
                              txBufferIndex := 0 }
        let st3 := if st2.opMode = I2C_OP_MODE_DMA ∧ 5 ≤ st2.txBufferLength then
                     { st2 with activeDMA := I2C_DMA_ADDR }  -- DMA buffer setup is external
                   else st2
        let c1v := I2C_C1_IICEN ||| I2C_C1_IICIE ||| I2C_C1_MST ||| I2C_C1_TX
        ({ st3 with C1 := c1v },
         ev0 ++ evA ++ [Event.writeC1 c1v, Event.writeD (st3.txBuffer 0)])

-- ------------------------------------------------------------------------
-- sendRequest_, i2c_t3.cpp lines 952-1073.
-- ------------------------------------------------------------------------

/-- Immediate-mode receive loop of `sendRequest_`
(`while(rxBufferLength < reqCount && currentStatus == I2C_RECEIVING)`).
`polls n` gives, for the iteration that stores the n-th byte, the
`chkTimeout` sample (`timeout != 0 && deltaT >= timeout`) and the data byte
read from the data register.  Every iteration stores exactly one byte, so
fuel is passed as `reqCount` at the entry call; fuel exhaustion coincides
with the `rxBufferLength < reqCount` guard failing. -/
def masterRxLoop (polls : Nat → Bool × Nat) : Nat → i2cStruct → i2cStruct × List Event
  | 0, st => (st, [])
  | fuel + 1, st =>
    if st.rxBufferLength < st.reqCount ∧ st.currentStatus = I2C_RECEIVING then
      let chkTimeout := (polls st.rxBufferLength).1
      let dataIn := (polls st.rxBufferLength).2
      let ev0 := [Event.writeS I2C_S_IICIF]  -- i2c_wait_
      -- check if 2nd to last byte or timeout
      let hit1 := st.rxBufferLength + 2 = st.reqCount ∨
                  (chkTimeout = true ∧ st.timeoutRxNAK = false)
      let c1nak := I2C_C1_IICEN ||| I2C_C1_MST ||| I2C_C1_TXAK
      let st1 := if hit1 then { st with C1 := c1nak } else st
      let ev1 := if hit1 then [Event.writeC1 c1nak] else []
      -- if last byte or timeout send STOP
      if st1.rxBufferLength + 1 ≥ st1.reqCount ∨
         (chkTimeout = true ∧ st1.timeoutRxNAK = true) then
        let c1tx := I2C_C1_IICEN ||| I2C_C1_MST ||| I2C_C1_TX
        let st2 := { st1 with timeoutRxNAK := false, C1 := c1tx }
        let st3 := { st2 with
          rxBuffer := Function.update st2.rxBuffer st2.rxBufferLength dataIn,
          rxBufferLength := st2.rxBufferLength + 1,
          currentStatus := if chkTimeout = true then I2C_TIMEOUT else I2C_WAITING }
        let stopHit := st3.currentStop = I2C_STOP
        let st4 := if stopHit then { st3 with C1 := I2C_C1_IICEN } else st3
        let ev2 := [Event.writeC1 c1tx, Event.readD] ++
                   (if stopHit then [Event.writeC1 I2C_C1_IICEN] else [])
        let st5 := if chkTimeout = true then { st4 with timeoutRxNAK := true } else st4
        let r := masterRxLoop polls fuel st5
        (r.1, ev0 ++ ev1 ++ ev2 ++ r.2)
      else
        -- grab next data, not last byte, will ACK
        let st2 := { st1 with
          rxBuffer := Function.update st1.rxBuffer st1.rxBufferLength dataIn,
          rxBufferLength := st1.rxBufferLength + 1 }
        let st3 := if chkTimeout = true then { st2 with timeoutRxNAK := true } else st2
        let r := masterRxLoop polls fuel st3
        (r.1, ev0 ++ ev1 ++ [Event.readD] ++ r.2)
    else (st, [])

/-- Status-flag responses for the address phase of an immediate-mode Master
Receive. -/
structure AddrPoll where
  arbl : Bool
  rxak : Bool

/-- `void i2c_t3::sendRequest_`: start (immediate mode: perform) a Master
Receive of `len` bytes from `addr`.  Zero-length requests return with no
state change; requests larger than the Rx buffer fail with
`I2C_BUF_OVF` before the bus is acquired or any buffer field touched. -/
def sendRequest_ (st : i2cStruct) (addr len : Nat) (sendStop : i2c_stop)
    (env : AcqEnv) (addrPoll : AddrPoll) (polls : Nat → Bool × Nat) :
    i2cStruct × List Event :=
  -- exit immediately if request for 0 bytes or request too large
  if len = 0 then (st, [])
  else if len > I2C_RX_BUFFER_LENGTH then ({ st with currentStatus := I2C_BUF_OVF }, [])
  else
    let st0 := { st with reqCount := len, rxBufferIndex := 0, rxBufferLength := 0 }
    -- clear the status flags
    let ev0 := [Event.writeS (I2C_S_IICIF ||| I2C_S_ARBL)]
    -- try to take control of the bus
    let acq := acquireBus_ st0 env
    if acq.1 = 0 then (acq.2.2.1, ev0 ++ acq.2.2.2)
    else
      let forceImm := acq.2.1
      let st1 := acq.2.2.1
      let evA := acq.2.2.2
      if st1.opMode = I2C_OP_MODE_IMM ∨ forceImm = true then
        -- Immediate mode - blocking
        let st2 := { st1 with currentStatus := I2C_SEND_ADDR, currentStop := sendStop }
        -- Send target address (address + READ), wait for done, read status
        let ev1 := [Event.writeD ((addr <<< 1) ||| 1), Event.writeS I2C_S_IICIF]
        if addrPoll.arbl = true then
          ({ st2 with currentStatus := I2C_ARB_LOST, C1 := I2C_C1_IICEN },
           ev0 ++ evA ++ ev1 ++ [Event.writeC1 I2C_C1_IICEN, Event.writeS I2C_S_ARBL])
        else if addrPoll.rxak = true then
          ({ st2 with currentStatus := I2C_ADDR_NAK, C1 := I2C_C1_IICEN },
           ev0 ++ evA ++ ev1 ++ [Event.writeC1 I2C_C1_IICEN])
        else
          -- Slave addr ACK, change to Rx mode
          let c1rx := if st2.reqCount = 1 then I2C_C1_IICEN ||| I2C_C1_MST ||| I2C_C1_TXAK
                      else I2C_C1_IICEN ||| I2C_C1_MST
          let st3 := { st2 with currentStatus := I2C_RECEIVING, C1 := c1rx }
          let ev2 := [Event.writeC1 c1rx, Event.readD]  -- dummy read
          let r := masterRxLoop polls st3.reqCount st3
          (r.1, ev0 ++ evA ++ ev1 ++ ev2 ++ r.2)
      else
        -- ISR/DMA mode - non-blocking: send 1st data and enable interrupts
        let st2 := { st1 with currentStatus := I2C_SEND_ADDR, currentStop := sendStop }
        let st3 := if st2.opMode = I2C_OP_MODE_DMA ∧ 5 ≤ st2.reqCount then
                     { st2 with activeDMA := I2C_DMA_ADDR }  -- DMA buffer setup is external
                   else st2
        let c1v := I2C_C1_IICEN ||| I2C_C1_IICIE ||| I2C_C1_MST ||| I2C_C1_TX
        ({ st3 with C1 := c1v },
         ev0 ++ evA ++ [Event.writeC1 c1v, Event.writeD ((addr <<< 1) ||| 1)])

/-- `size_t i2c_t3::requestFrom_`, i2c_t3.cpp lines 925-937: blocking Master
Receive; returns the number of bytes received on success, 0 on failure. -/
def requestFrom_ (st : i2cStruct) (addr len : Nat) (sendStop : i2c_stop)
    (env : AcqEnv) (addrPoll : AddrPoll) (polls : Nat → Bool × Nat) :
    Nat × i2cStruct × List Event :=
  -- exit immediately if request for 0 bytes
  if len = 0 then (0, st, [])
  else
    let r := sendRequest_ st addr len sendStop env addrPoll polls
    let f := finish_ r.1
    if f.1 = 1 then (f.2.rxBufferLength, f.2, r.2) else (0, f.2, r.2)

-- ------------------------------------------------------------------------
-- i2c_isr_handler (Master-mode portion), i2c_t3.cpp lines 1268-1529.
-- ------------------------------------------------------------------------

/-- `void i2c_isr_handler(struct i2cStruct* i2c, uint8_t bus)`, Master-mode
portion (the `c1 & I2C_C1_MST` branch of the source).  `status` is the value
read from the status register at entry; `dmaComplete`/`dmaError` are the DMA
completion/error indications of the DMA channel; `dataIn` is the byte a data-register
read would return.  The Slave-mode branch (`else` at line 1530, relevant only
to Slave transfers, which no Master-transfer claim concerns) is modelled as a
no-op.  Returns the new state and the event trace of the invocation. -/
def i2c_isr_handler (st : i2cStruct) (status : Nat) (dmaComplete dmaError : Bool)
    (dataIn : Nat) : i2cStruct × List Event :=
  let c1 := st.C1
  if c1 &&& I2C_C1_MST ≠ 0 then
    if c1 &&& I2C_C1_TX ≠ 0 then
      -- Master Transmit
      if st.activeDMA = I2C_DMA_BULK ∨ st.activeDMA = I2C_DMA_LAST then
        -- DMA Tx
        if dmaComplete = true ∧ st.activeDMA = I2C_DMA_BULK then
          let c1v := I2C_C1_IICEN ||| I2C_C1_IICIE ||| I2C_C1_MST ||| I2C_C1_TX
          ({ st with C1 := c1v, activeDMA := I2C_DMA_LAST },
           [Event.writeC1 c1v, Event.writeS I2C_S_IICIF])
        else if st.activeDMA = I2C_DMA_LAST then
          -- wait for TCF, re-engage ISR for last byte
          ({ st with activeDMA := I2C_DMA_OFF, txBufferIndex := st.txBufferLength - 1 },
           [Event.writeD (st.txBuffer (st.txBufferLength - 1)), Event.writeS I2C_S_IICIF])
        else if dmaError = true then
          let st1 := { st with activeDMA := I2C_DMA_OFF }
          if status &&& I2C_S_ARBL ≠ 0 then
            -- Arbitration Lost (return path skips the trailing IICIF clear)
            ({ st1 with currentStatus := I2C_ARB_LOST, C1 := I2C_C1_IICEN,
                        txBufferIndex := 0 },
             [Event.writeC1 I2C_C1_IICEN, Event.writeS (I2C_S_ARBL ||| I2C_S_IICIF)])
          else (st1, [Event.writeS I2C_S_IICIF])
        else (st, [Event.writeS I2C_S_IICIF])
      else
        -- Continue Master Transmit / Master Receive address phase
        if st.currentStatus = I2C_SENDING then
          if status &&& I2C_S_ARBL ≠ 0 then
            -- Arbitration Lost
            ({ st with activeDMA := I2C_DMA_OFF, currentStatus := I2C_ARB_LOST,
                       C1 := I2C_C1_IICEN, txBufferIndex := 0 },
             [Event.writeC1 I2C_C1_IICEN, Event.writeS (I2C_S_ARBL ||| I2C_S_IICIF)])
          else if status &&& I2C_S_RXAK ≠ 0 then
            -- Slave NAK is an error, so send STOP regardless of setting
            ({ st with activeDMA := I2C_DMA_OFF,
                       currentStatus := if st.txBufferIndex = 0 then I2C_ADDR_NAK
                                        else I2C_DATA_NAK,
                       C1 := I2C_C1_IICEN },
             [Event.writeC1 I2C_C1_IICEN, Event.writeS I2C_S_IICIF])
          else
            -- check if last byte transmitted (++txBufferIndex >= txBufferLength)
            let st1 := { st with txBufferIndex := st.txBufferIndex + 1 }
            if st1.txBufferIndex ≥ st1.txBufferLength then
              let c1v := if st1.currentStop = I2C_STOP then I2C_C1_IICEN
                         else I2C_C1_IICEN ||| I2C_C1_MST ||| I2C_C1_TX
              ({ st1 with currentStatus := I2C_WAITING, C1 := c1v },
               [Event.writeC1 c1v, Event.writeS I2C_S_IICIF])
            else if st1.activeDMA = I2C_DMA_ADDR then
              -- Start DMA
              let c1v := I2C_C1_IICEN ||| I2C_C1_IICIE ||| I2C_C1_MST ||| I2C_C1_TX |||
                         I2C_C1_DMAEN
              ({ st1 with activeDMA := I2C_DMA_BULK, C1 := c1v },
               [Event.writeC1 c1v, Event.writeD (st1.txBuffer 1), Event.writeS I2C_S_IICIF])
            else
              -- ISR transmit next byte
              ({ st1 with },
               [Event.writeD (st1.txBuffer st1.txBufferIndex), Event.writeS I2C_S_IICIF])
        else if st.currentStatus = I2C_SEND_ADDR then
          -- Master Receive, addr sent
          if status &&& I2C_S_ARBL ≠ 0 then
            ({ st with currentStatus := I2C_ARB_LOST, C1 := I2C_C1_IICEN },
             [Event.writeC1 I2C_C1_IICEN, Event.writeS (I2C_S_ARBL ||| I2C_S_IICIF)])
          else if status &&& I2C_S_RXAK ≠ 0 then
            -- Slave addr NAK: send STOP, change to Rx mode, intr disabled
            ({ st with currentStatus := I2C_ADDR_NAK, C1 := I2C_C1_IICEN },
             [Event.writeC1 I2C_C1_IICEN, Event.writeS I2C_S_IICIF])
          else if st.activeDMA = I2C_DMA_ADDR then
            -- Start DMA
            let c1v := I2C_C1_IICEN ||| I2C_C1_IICIE ||| I2C_C1_MST ||| I2C_C1_DMAEN
            ({ st with activeDMA := I2C_DMA_BULK, C1 := c1v },
             [Event.writeC1 c1v, Event.readD, Event.writeS I2C_S_IICIF])
          else
            -- Slave addr ACK, change to Rx mode
            let c1v := if st.reqCount = 1 then
                         I2C_C1_IICEN ||| I2C_C1_IICIE ||| I2C_C1_MST ||| I2C_C1_TXAK
                       else I2C_C1_IICEN ||| I2C_C1_IICIE ||| I2C_C1_MST
            ({ st with currentStatus := I2C_RECEIVING, C1 := c1v },
             [Event.writeC1 c1v, Event.readD, Event.writeS I2C_S_IICIF])
        else if st.currentStatus = I2C_TIMEOUT then
          let c1v := if st.currentStop = I2C_STOP then I2C_C1_IICEN
                     else I2C_C1_IICEN ||| I2C_C1_MST ||| I2C_C1_TX
          ({ st with C1 := c1v }, [Event.writeC1 c1v, Event.writeS I2C_S_IICIF])
        else
          -- Should not be in Tx mode if not sending
          ({ st with C1 := I2C_C1_IICEN },
           [Event.writeC1 I2C_C1_IICEN, Event.writeS I2C_S_IICIF])
    else
      -- Continue Master Receive
      if st.activeDMA = I2C_DMA_BULK ∨ st.activeDMA = I2C_DMA_LAST then
        if dmaComplete = true ∧ st.activeDMA = I2C_DMA_BULK then
          -- 2nd to last byte
          let c1v := I2C_C1_IICEN ||| I2C_C1_IICIE ||| I2C_C1_MST ||| I2C_C1_TXAK
          ({ st with C1 := c1v, activeDMA := I2C_DMA_LAST },
           [Event.writeC1 c1v, Event.writeS I2C_S_IICIF])
        else if st.activeDMA = I2C_DMA_LAST then
          -- last byte
          let newStatus := if st.currentStatus ≠ I2C_TIMEOUT then I2C_WAITING
                           else st.currentStatus
          let st1 := { st with activeDMA := I2C_DMA_OFF, currentStatus := newStatus }
          let c1tx := I2C_C1_IICEN ||| I2C_C1_MST ||| I2C_C1_TX
          let st2 := { st1 with
            C1 := c1tx,
            rxBuffer := Function.update st1.rxBuffer (st1.reqCount - 1) dataIn,
            rxBufferLength := st1.reqCount - 1 + 1 }
          let stopHit := st2.currentStop = I2C_STOP
          let st3 := if stopHit then { st2 with C1 := I2C_C1_IICEN } else st2
          (st3, [Event.writeC1 c1tx, Event.readD] ++
                (if stopHit then [Event.writeC1 I2C_C1_IICEN] else []) ++
                [Event.writeS I2C_S_IICIF])
        else if dmaError = true then
          ({ st with activeDMA := I2C_DMA_OFF, currentStatus := I2C_WAITING,
                     C1 := I2C_C1_IICEN },
           [Event.writeC1 I2C_C1_IICEN, Event.writeS I2C_S_IICIF])
        else (st, [Event.writeS I2C_S_IICIF])
      else
        -- check if 2nd to last byte or timeout
        let hit1 := st.rxBufferLength + 2 = st.reqCount ∨
                    (st.currentStatus = I2C_TIMEOUT ∧ st.timeoutRxNAK = false)
        let c1nak := I2C_C1_IICEN ||| I2C_C1_IICIE ||| I2C_C1_MST ||| I2C_C1_TXAK
        let st1 := if hit1 then { st with C1 := c1nak } else st
        let ev1 := if hit1 then [Event.writeC1 c1nak] else []
        -- if last byte or timeout send STOP
        if st1.rxBufferLength + 1 ≥ st1.reqCount ∨
           (st1.currentStatus = I2C_TIMEOUT ∧ st1.timeoutRxNAK = true) then
          let newStatus := if st1.currentStatus ≠ I2C_TIMEOUT then I2C_WAITING
                           else st1.currentStatus
          let st2 := { st1 with timeoutRxNAK := false, currentStatus := newStatus }
          let c1tx := I2C_C1_IICEN ||| I2C_C1_MST ||| I2C_C1_TX
          let st3 := { st2 with
            C1 := c1tx,
            rxBuffer := Function.update st2.rxBuffer st2.rxBufferLength dataIn,
            rxBufferLength := st2.rxBufferLength + 1 }
          let stopHit := st3.currentStop = I2C_STOP
          let st4 := if stopHit then { st3 with C1 := I2C_C1_IICEN } else st3
          let st5 := if st4.currentStatus = I2C_TIMEOUT ∧ st4.timeoutRxNAK = false then
                       { st4 with timeoutRxNAK := true } else st4
          (st5, ev1 ++ [Event.writeC1 c1tx, Event.readD] ++
                (if stopHit then [Event.writeC1 I2C_C1_IICEN] else []) ++
                [Event.writeS I2C_S_IICIF])
        else
          -- grab next data, not last byte, will ACK
          let st2 := { st1 with
            rxBuffer := Function.update st1.rxBuffer st1.rxBufferLength dataIn,
            rxBufferLength := st1.rxBufferLength + 1 }
          let st3 := if st2.currentStatus = I2C_TIMEOUT ∧ st2.timeoutRxNAK = false then
                       { st2 with timeoutRxNAK := true } else st2
          (st3, ev1 ++ [Event.readD, Event.writeS I2C_S_IICIF])
  else
    -- Slave-mode branch (i2c_t3.cpp line 1530 onward): outside this model
    (st, [])

-- ------------------------------------------------------------------------
-- Trace observation helpers.
-- ------------------------------------------------------------------------

/-- Value last written to control register C1 before the first data-register
read of a trace (`none` when the trace contains no data-register read, or no
C1 write precedes the first one).  Used to state what acknowledge
configuration is in force when the first (dummy) read occurs. -/
def lastC1BeforeFirstReadD : List Event → Option Nat → Option Nat
  | [], _ => none
  | Event.readD :: _, acc => acc
  | Event.writeC1 v :: rest, _ => lastC1BeforeFirstReadD rest (some v)
  | _ :: rest, acc => lastC1BeforeFirstReadD rest acc

-- ------------------------------------------------------------------------
-- Concrete states and environments used by witnesses and counterexamples.
-- ------------------------------------------------------------------------

/-- Freshly configured bus context (Master, immediate mode, empty buffers). -/
def baseState : i2cStruct :=
  { C1 := 0, rxBuffer := fun _ => 0, rxBufferIndex := 0, rxBufferLength := 0,
    txBuffer := fun _ => 0, txBufferIndex := 0, txBufferLength := 0,
    opMode := I2C_OP_MODE_IMM, currentMode := I2C_MASTER, currentPins := I2C_PINS_18_19,
    currentPullup := I2C_PULLUP_INT, currentStop := I2C_STOP, currentStatus := I2C_WAITING,
    reqCount := 0, timeoutRxNAK := false, activeDMA := I2C_DMA_OFF, writeError := false,
    defTimeout := 200000 }

/-- Environment in which the first bus-busy sample reads idle. -/
def envIdle : AcqEnv :=
  { busyPolls := [false], sdaAfterReset := fun _ => true, busyAfterReset := true,
    currPriority := 16, irqPriority := 15 }

/-- Mid-transmit context of an interrupt-driven Master Transmit: C1 as written
by the ISR arm of `sendTransmission_` (IICEN|IICIE|MST|TX = 0xF0). -/
def stSending (len idx : Nat) : i2cStruct :=
  { baseState with
    C1 := 0xF0, currentStatus := I2C_SENDING, txBufferLength := len, txBufferIndex := idx }

/-- Address-phase context of an interrupt-driven Master Receive: C1 as written
by the ISR arm of `sendRequest_` (IICEN|IICIE|MST|TX = 0xF0). -/
def stSendAddr (req : Nat) : i2cStruct :=
  { baseState with
    C1 := 0xF0, currentStatus := I2C_SEND_ADDR, reqCount := req, opMode := I2C_OP_MODE_ISR }

-- ------------------------------------------------------------------------
-- Helper lemmas.
-- ------------------------------------------------------------------------

/-- Bytes at or beyond the copy window are untouched by `copyBytes`. -/
theorem copyBytes_oob (src : Nat → Nat) :
    ∀ (q : Nat) (buf : Nat → Nat) (destIdx srcIdx i : Nat), destIdx + q ≤ i →
      copyBytes buf destIdx src srcIdx q i = buf i := by
  intro q
  induction q with
  | zero => intro buf destIdx srcIdx i _; rfl
  | succ n ih =>
    intro buf destIdx srcIdx i h
    show copyBytes (Function.update buf destIdx (src srcIdx)) (destIdx + 1) src (srcIdx + 1) n i
        = buf i
    rw [ih _ _ _ _ (by omega)]
    exact Function.update_noteq (by omega) _ _

-- ------------------------------------------------------------------------
-- C6: getError code mapping.
-- ------------------------------------------------------------------------

/-- C6.  `getError()` returns exactly the stable error-code mapping: 0 on
success, 1 for buffer overflow (also when only the Stream write-error flag is
set), 2 for address NAK, 3 for data NAK, 4 for the remaining errors (timeout
and arbitration lost; a failed bus acquisition is recorded as `I2C_TIMEOUT`
and hence also maps to 4).  No value outside 0..4 is returned, and the
status-derived codes take priority over the write-error flag. -/
theorem getError_code_mapping (st : i2cStruct) :
    getError st ≤ 4 ∧
    (st.currentStatus = I2C_WAITING →
      getError st = if st.writeError then 1 else 0) ∧
    (st.currentStatus = I2C_BUF_OVF → getError st = 1) ∧
    (st.currentStatus = I2C_ADDR_NAK → getError st = 2) ∧
    (st.currentStatus = I2C_DATA_NAK → getError st = 3) ∧
    (st.currentStatus = I2C_ARB_LOST → getError st = 4) ∧
    (st.currentStatus = I2C_TIMEOUT → getError st = 4) ∧
    (∀ b : Bool,
      st.currentStatus = I2C_BUF_OVF ∨ st.currentStatus = I2C_ADDR_NAK ∨
      st.currentStatus = I2C_DATA_NAK ∨ st.currentStatus = I2C_ARB_LOST ∨
      st.currentStatus = I2C_TIMEOUT →
      getError { st with writeError := b } = getError st) ∧
    (∀ env : AcqEnv, (acquireBus_ st env).1 = 0 →
      (acquireBus_ st env).2.2.1.currentStatus = I2C_TIMEOUT ∧
      getError (acquireBus_ st env).2.2.1 = 4) := by
  refine ⟨?_, ?_, ?_, ?_, ?_, ?_, ?_, ?_, ?_⟩
  · unfold getError
    cases h : st.currentStatus <;> simp <;> split <;> simp
  · intro h; simp [getError, h]
  · intro h; simp [getError, h]
  · intro h; simp [getError, h]
  · intro h; simp [getError, h]
  · intro h; simp [getError, h]
  · intro h; simp [getError, h]
  · intro b h
    rcases h with h | h | h | h | h <;> simp [getError, h]
  · intro env h
    by_cases h1 : st.C1 &&& I2C_C1_MST ≠ 0
    · unfold acquireBus_ at h
      rw [if_pos h1] at h
      simp at h
    · by_cases h2 : acquireBusPoll env.busyPolls = true
      · unfold acquireBus_ at h
        rw [if_neg h1, if_pos h2] at h
        simp at h
      · by_cases h3 : env.busyAfterReset = false
        · unfold acquireBus_ at h
          rw [if_neg h1, if_neg h2, if_pos h3] at h
          simp at h
        · unfold acquireBus_
          rw [if_neg h1, if_neg h2, if_neg h3]
          exact ⟨rfl, rfl⟩

/-- Witness for C6 at concrete states. -/
theorem getError_code_mapping_witness :
    getError { baseState with currentStatus := I2C_ADDR_NAK } = 2 ∧
    getError { baseState with currentStatus := I2C_DATA_NAK, writeError := true } = 3 ∧
    getError { baseState with writeError := true } = 1 := by
  refine ⟨?_, ?_, ?_⟩
  · exact (getError_code_mapping _).2.2.2.1 rfl
  · exact (getError_code_mapping _).2.2.2.2.1 rfl
  · have h := (getError_code_mapping { baseState with writeError := true }).2.1 rfl
    simpa using h

-- ------------------------------------------------------------------------
-- C9: setOpMode refuses while the bus is busy.
-- ------------------------------------------------------------------------

/-- C9.  Calling `setOpMode_` with any requested operating mode while the
bus-busy status flag reads set returns 0 and leaves the whole bus context
unchanged (and performs no register write). -/
theorem setOpMode_busy_noop (st : i2cStruct) (dmaChannelAvail : Bool) (m : i2c_op_mode) :
    setOpMode_ st true dmaChannelAvail m = (0, st, []) := rfl

-- ------------------------------------------------------------------------
-- C10: sendRequest_ / requestFrom_ zero-length and oversized guards.
-- ------------------------------------------------------------------------

/-- C10.  A request longer than the Rx buffer capacity makes `sendRequest_`
set `I2C_BUF_OVF` and return with no other state change and no hardware
access (so before acquiring the bus, starting a transfer, or touching the
receive buffer, its fill-length or its read-cursor); a zero-length request
returns with no change at all; `requestFrom_` returns 0 in both cases. -/
theorem sendRequest_length_guards (st : i2cStruct) (addr len : Nat) (sendStop : i2c_stop)
    (env : AcqEnv) (ap : AddrPoll) (polls : Nat → Bool × Nat) :
    (len > I2C_RX_BUFFER_LENGTH →
      sendRequest_ st addr len sendStop env ap polls =
        ({ st with currentStatus := I2C_BUF_OVF }, []) ∧
      (requestFrom_ st addr len sendStop env ap polls).1 = 0 ∧
      (requestFrom_ st addr len sendStop env ap polls).2.1.currentStatus = I2C_BUF_OVF) ∧
    (len = 0 →
      sendRequest_ st addr len sendStop env ap polls = (st, []) ∧
      requestFrom_ st addr len sendStop env ap polls = (0, st, [])) := by
  constructor
  · intro h
    have hlen : len ≠ 0 := by
      intro h0; rw [h0] at h; exact absurd h (by decide)
    have hsr : sendRequest_ st addr len sendStop env ap polls =
        ({ st with currentStatus := I2C_BUF_OVF }, []) := by
      unfold sendRequest_
      rw [if_neg hlen, if_pos h]
    refine ⟨hsr, ?_, ?_⟩
    · unfold requestFrom_
      rw [if_neg hlen, hsr]
      simp [finish_]
    · unfold requestFrom_
      rw [if_neg hlen, hsr]
      simp [finish_]
  · intro h
    subst h
    constructor
    · unfold sendRequest_; simp
    · unfold requestFrom_; simp

/-- Witness for C10 at a concrete oversized and a concrete zero request. -/
theorem sendRequest_length_guards_witness :
    (sendRequest_ baseState 0x44 300 I2C_STOP envIdle { arbl := false, rxak := false }
        (fun _ => (false, 0))).1.currentStatus = I2C_BUF_OVF ∧
    (requestFrom_ baseState 0x44 300 I2C_STOP envIdle { arbl := false, rxak := false }
        (fun _ => (false, 0))).1 = 0 ∧
    requestFrom_ baseState 0x44 0 I2C_STOP envIdle { arbl := false, rxak := false }
        (fun _ => (false, 0)) = (0, baseState, []) := by
  have h := (sendRequest_length_guards baseState 0x44 300 I2C_STOP envIdle
      { arbl := false, rxak := false } (fun _ => (false, 0))).1 (by decide)
  have h0 := (sendRequest_length_guards baseState 0x44 0 I2C_STOP envIdle
      { arbl := false, rxak := false } (fun _ => (false, 0))).2 rfl
  exact ⟨by rw [h.1], h.2.1, h0.2⟩

-- ------------------------------------------------------------------------
-- C7: write / write_array bounds.
-- ------------------------------------------------------------------------

/-- C7.  A byte `write` on a full Tx buffer (length = capacity 259) returns
0, sets the write-error flag and stores nothing (the array form likewise);
no form ever stores at an index at or beyond the capacity; the array form
truncates to the available space, sets the write-error flag when it
truncates, and returns (and adds to the length) exactly the number of bytes
stored. -/
theorem write_buffer_bounds (st : i2cStruct) (data : Nat) (dataArr : Nat → Nat)
    (quantity : Nat) :
    (st.txBufferLength = I2C_TX_BUFFER_LENGTH →
      (write st data).1 = 0 ∧ (write st data).2.writeError = true ∧
      (write st data).2.txBuffer = st.txBuffer ∧
      (write st data).2.txBufferLength = st.txBufferLength ∧
      (write_array st dataArr quantity).1 = 0 ∧
      (write_array st dataArr quantity).2.writeError = true ∧
      (write_array st dataArr quantity).2.txBuffer = st.txBuffer) ∧
    (∀ i, I2C_TX_BUFFER_LENGTH ≤ i →
      (write st data).2.txBuffer i = st.txBuffer i ∧
      (write_array st dataArr quantity).2.txBuffer i = st.txBuffer i) ∧
    (st.txBufferLength < I2C_TX_BUFFER_LENGTH →
      (write_array st dataArr quantity).1 =
        min quantity (I2C_TX_BUFFER_LENGTH - st.txBufferLength) ∧
      (I2C_TX_BUFFER_LENGTH - st.txBufferLength < quantity →
        (write_array st dataArr quantity).2.writeError = true)) ∧
    (write_array st dataArr quantity).2.txBufferLength =
      st.txBufferLength + (write_array st dataArr quantity).1 := by
  refine ⟨?_, ?_, ?_, ?_⟩
  · intro h
    have hnl : ¬ st.txBufferLength < I2C_TX_BUFFER_LENGTH := by omega
    unfold write write_array
    rw [if_neg hnl, if_neg hnl]
    simp
  · intro i hi
    constructor
    · unfold write
      split
      · next hlt =>
        simp only
        exact Function.update_noteq (by omega) _ _
      · rfl
    · unfold write_array
      split
      · next hlt =>
        simp only
        split
        · refine copyBytes_oob _ _ _ _ _ _ ?_
          show st.txBufferLength + (I2C_TX_BUFFER_LENGTH - st.txBufferLength) ≤ i
          omega
        · next hq => exact copyBytes_oob _ _ _ _ _ _ (by omega)
      · rfl
  · intro h
    unfold write_array
    rw [if_pos h]
    constructor
    · simp only
      split
      · next hq => omega
      · next hq => omega
    · intro hq
      simp only
      rw [if_pos (by omega : quantity > I2C_TX_BUFFER_LENGTH - st.txBufferLength)]
  · unfold write_array
    split
    · simp only
      split <;> rfl
    · simp

/-- Witness for C7: a full buffer rejects a byte; a 300-byte array write into
an empty buffer truncates to 259 and flags the error. -/
theorem write_buffer_bounds_witness :
    (write { baseState with txBufferLength := 259 } 7).1 = 0 ∧
    (write { baseState with txBufferLength := 259 } 7).2.writeError = true ∧
    (write_array baseState (fun _ => 1) 300).1 = 259 ∧
    (write_array baseState (fun _ => 1) 300).2.writeError = true := by
  have h1 := (write_buffer_bounds { baseState with txBufferLength := 259 } 7
      (fun _ => 1) 300).1 rfl
  have h2 := (write_buffer_bounds baseState 7 (fun _ => 1) 300).2.2.1 (by decide)
  refine ⟨h1.1, h1.2.1, ?_, h2.2 (by decide)⟩
  rw [h2.1]
  decide

-- ------------------------------------------------------------------------
-- C1: immediate-mode NAK statuses are clobbered to I2C_TIMEOUT (code bug).
-- ------------------------------------------------------------------------

/-- C1.  In the immediate (polled) path of `sendTransmission_`, a NAK on the
address byte IS detected as `I2C_ADDR_NAK` inside the byte loop, but the
unconditional final-status block (`if(idx < txBufferLength) currentStatus =
I2C_TIMEOUT`, i2c_t3.cpp lines 879-883) then overwrites it, so the terminal
status observed by the caller is `I2C_TIMEOUT`, contradicting the claim (and
the documented return contract of the function, "2=recv addr NACK").  The
interrupt-driven path (see `i2c_isr_handler`) keeps `I2C_ADDR_NAK`. -/
theorem sendTransmission_imm_addr_nak_clobbered :
    (sendTransmissionLoop (fun _ => { timeOk := true, arbl := false, rxak := true }) 2
        (stSending 2 0) 0).1.currentStatus = I2C_ADDR_NAK ∧
    (sendTransmission_ { baseState with txBufferLength := 2 } I2C_STOP envIdle
        (fun _ => { timeOk := true, arbl := false, rxak := true })).1.currentStatus
      = I2C_TIMEOUT ∧
    I2C_TIMEOUT ≠ I2C_ADDR_NAK ∧
    (i2c_isr_handler (stSending 2 0) I2C_S_RXAK false false 0).1.currentStatus
      = I2C_ADDR_NAK := by
  refine ⟨rfl, rfl, by decide, rfl⟩

-- ------------------------------------------------------------------------
-- C4: arbitration loss during Master Transmit (ISR path).
-- ------------------------------------------------------------------------

/-- Counterexample for C4: on an arbitration-lost interrupt during a Master
Transmit with three buffered bytes, the length field of the transmit buffer
(`txBufferLength`, the write-cursor of the data model) stays 3 — the claim
asserting that it is reset to 0 is false; it is the index field
(`txBufferIndex`, the read-cursor) that becomes 0. -/
theorem isr_arbl_keeps_txBufferLength :
    (i2c_isr_handler (stSending 3 2) (I2C_S_ARBL ||| I2C_S_IICIF)
        false false 0).1.txBufferLength = 3 ∧
    ¬ (i2c_isr_handler (stSending 3 2) (I2C_S_ARBL ||| I2C_S_IICIF)
        false false 0).1.txBufferLength = 0 ∧
    (i2c_isr_handler (stSending 3 2) (I2C_S_ARBL ||| I2C_S_IICIF)
        false false 0).1.txBufferIndex = 0 := by
  refine ⟨rfl, by decide, rfl⟩

/-- C4 (amended).  When the arbitration-lost flag is set during an
in-progress Master Transmit (status `I2C_SENDING`, interrupt path, no DMA
phase active), the handler sets status `I2C_ARB_LOST`, switches the
controller to receive mode with interrupts disabled (C1 := IICEN only),
clears the arbitration-lost flag (S write of ARBL|IICIF), and resets the
read-cursor `txBufferIndex` of the transmit buffer to 0 so a retry can resend
from the address byte; the write-cursor `txBufferLength` is unchanged. -/
theorem isr_arbl_resets_txBufferIndex (st : i2cStruct) (status : Nat)
    (dc de : Bool) (d : Nat)
    (hmst : st.C1 &&& I2C_C1_MST ≠ 0) (htx : st.C1 &&& I2C_C1_TX ≠ 0)
    (hd1 : st.activeDMA ≠ I2C_DMA_BULK) (hd2 : st.activeDMA ≠ I2C_DMA_LAST)
    (hs : st.currentStatus = I2C_SENDING) (harbl : status &&& I2C_S_ARBL ≠ 0) :
    (i2c_isr_handler st status dc de d).1.currentStatus = I2C_ARB_LOST ∧
    (i2c_isr_handler st status dc de d).1.C1 = I2C_C1_IICEN ∧
    (i2c_isr_handler st status dc de d).1.txBufferIndex = 0 ∧
    (i2c_isr_handler st status dc de d).1.txBufferLength = st.txBufferLength ∧
    (i2c_isr_handler st status dc de d).2 =
      [Event.writeC1 I2C_C1_IICEN, Event.writeS (I2C_S_ARBL ||| I2C_S_IICIF)] := by
  unfold i2c_isr_handler
  simp [hmst, htx, hd1, hd2, hs, harbl]

/-- Witness for C4 (amended) at a concrete arbitration-lost interrupt. -/
theorem isr_arbl_resets_txBufferIndex_witness :
    (i2c_isr_handler (stSending 5 1) 0x12 false false 0).1.currentStatus = I2C_ARB_LOST ∧
    (i2c_isr_handler (stSending 5 1) 0x12 false false 0).1.txBufferIndex = 0 := by
  have h := isr_arbl_resets_txBufferIndex (stSending 5 1) 0x12 false false 0
    (by decide) (by decide) (by decide) (by decide) rfl (by decide)
  exact ⟨h.1, h.2.2.1⟩

-- ------------------------------------------------------------------------
-- C8: resetBus_ toggle bound and post-state.
-- ------------------------------------------------------------------------

/-- Every pin option maps to nonzero SDA and SCL pin numbers, so the
`if(sda && scl)` guard of `resetBus_` is always taken. -/
theorem resetBus_guard (p : i2c_pins) :
    i2c_pins_sda p ≠ 0 ∧ i2c_pins_scl p ≠ 0 := by
  cases p <;> simp [i2c_pins_sda, i2c_pins_scl]

/-- The toggle loop performs at most `fuel` cycles. -/
theorem resetBusLoop_le (scl : Nat) (sdaRead : Nat → Bool) :
    ∀ fuel count, (resetBusLoop scl sdaRead fuel count).1 ≤ fuel := by
  intro fuel
  induction fuel with
  | zero => intro count; simp [resetBusLoop]
  | succ n ih =>
    intro count
    unfold resetBusLoop
    split
    · simpa using Nat.succ_le_succ (ih (count + 1))
    · simp

/-- The toggle loop stops at the first released SDA sample: if SDA reads low
at every check before `k` and high at check `k < 10`, exactly `k - count`
cycles are performed from check `count` on. -/
theorem resetBusLoop_stops (scl : Nat) (sdaRead : Nat → Bool) :
    ∀ fuel count k, count ≤ k → k < 10 → sdaRead k = true →
      (∀ i, count ≤ i → i < k → sdaRead i = false) → k < count + fuel →
      (resetBusLoop scl sdaRead fuel count).1 = k - count := by
  intro fuel
  induction fuel with
  | zero => intro count k h1 _ _ _ h5; omega
  | succ n ih =>
    intro count k h1 h2 h3 h4 h5
    unfold resetBusLoop
    rcases Nat.eq_or_lt_of_le h1 with heq | hlt
    · subst heq
      rw [if_neg (by simp [h3])]
      omega
    · rw [if_pos ⟨h4 count le_rfl hlt, by omega⟩]
      have := ih (count + 1) k hlt h2 h3 (fun i hi1 hi2 => h4 i (by omega) hi2) (by omega)
      simp only [this]
      omega

/-- Counterexample for C8: with SDA stuck low throughout, `resetBus_`
toggles SCL ten times, not at most nine as claimed. -/
theorem resetBus_ten_toggles :
    (resetBus_ baseState (fun _ => false)).2.2 = 10 ∧
    ¬ (resetBus_ baseState (fun _ => false)).2.2 ≤ 9 := by
  refine ⟨rfl, by decide⟩

/-- C8 (amended).  `resetBus_` toggles the clock line low/high at most TEN
times (the loop guard is `count++ < 10`), stops at the first check at which
the data line reads released, afterwards resets `currentStatus` to the
waiting/idle state leaving every other context field unchanged, and its last
pin operation restores the clock/data pins to I2C peripheral function.  The
procedure is a total function (always terminates) and its toggle count is
not returned to the caller (the source returns `void`). -/
theorem resetBus_spec (st : i2cStruct) (sdaRead : Nat → Bool) :
    (resetBus_ st sdaRead).2.2 ≤ 10 ∧
    (∀ k, k < 10 → sdaRead k = true → (∀ i, i < k → sdaRead i = false) →
      (resetBus_ st sdaRead).2.2 = k) ∧
    (resetBus_ st sdaRead).1 = { st with currentStatus := I2C_WAITING } ∧
    (resetBus_ st sdaRead).2.1.getLast? =
      some (Event.pinConfigureI2C st.currentPins st.currentPullup) := by
  have hg := resetBus_guard st.currentPins
  refine ⟨?_, ?_, ?_, ?_⟩
  · simp only [resetBus_, hg, and_self, if_true, ne_eq]
    simpa using resetBusLoop_le (i2c_pins_scl st.currentPins) sdaRead 10 0
  · intro k hk h3 h4
    simp only [resetBus_, hg, and_self, if_true, ne_eq]
    simpa using resetBusLoop_stops (i2c_pins_scl st.currentPins) sdaRead 10 0 k
      (Nat.zero_le k) hk h3 (fun i _ hik => h4 i hik) (by omega)
  · simp [resetBus_, hg]
  · simp only [resetBus_, hg, and_self, ne_eq]
    have h2 := @List.getLast?_append_of_ne_nil Event
      (Event.pinModeEv (i2c_pins_sda st.currentPins)
          (if st.currentPullup = I2C_PULLUP_EXT then 0 else 2) ::
        Event.digitalWriteEv (i2c_pins_scl st.currentPins) true ::
        Event.pinModeEv (i2c_pins_scl st.currentPins) 1 ::
        (resetBusLoop (i2c_pins_scl st.currentPins) sdaRead 10 0).2)
      [Event.pinConfigureI2C st.currentPins st.currentPullup] (by simp)
    simpa using h2

/-- Witness for C8 (amended): SDA released at the fourth check gives exactly
three toggles; the status is reset and the pins restored. -/
theorem resetBus_spec_witness :
    (resetBus_ baseState (fun k => k = 3)).2.2 = 3 ∧
    (resetBus_ baseState (fun k => k = 3)).1 =
      { baseState with currentStatus := I2C_WAITING } ∧
    (resetBus_ baseState (fun k => k = 3)).2.1.getLast? =
      some (Event.pinConfigureI2C I2C_PINS_18_19 I2C_PULLUP_INT) := by
  have h := resetBus_spec baseState (fun k => k = 3)
  exact ⟨h.2.1 3 (by decide) (by decide) (by decide), h.2.2.1, h.2.2.2⟩

-- ------------------------------------------------------------------------
-- Preservation and success lemmas for acquireBus_ / the transmit loop.
-- ------------------------------------------------------------------------

/-- `resetBus_` only rewrites `currentStatus` (to `I2C_WAITING`). -/
theorem resetBus_fst (st : i2cStruct) (sdaRead : Nat → Bool) :
    (resetBus_ st sdaRead).1 = { st with currentStatus := I2C_WAITING } := by
  have hg := resetBus_guard st.currentPins
  simp [resetBus_, hg]

/-- `acquireBus_` touches only `C1`, `currentMode` and `currentStatus`. -/
theorem acquireBus_preserves (st : i2cStruct) (env : AcqEnv) :
    (acquireBus_ st env).2.2.1.opMode = st.opMode ∧
    (acquireBus_ st env).2.2.1.currentStop = st.currentStop ∧
    (acquireBus_ st env).2.2.1.txBufferLength = st.txBufferLength ∧
    (acquireBus_ st env).2.2.1.txBuffer = st.txBuffer ∧
    (acquireBus_ st env).2.2.1.reqCount = st.reqCount ∧
    (acquireBus_ st env).2.2.1.rxBufferLength = st.rxBufferLength := by
  unfold acquireBus_
  by_cases h1 : st.C1 &&& I2C_C1_MST ≠ 0
  · simp [h1]
  · by_cases h2 : acquireBusPoll env.busyPolls = true
    · simp [h1, h2]
    · by_cases h3 : env.busyAfterReset = false
      · simp [h1, h2, h3, resetBus_fst]
      · simp [h1, h2, h3, resetBus_fst]

/-- When a bus-busy poll reads idle before the deadline, `acquireBus_`
always succeeds. -/
theorem acquireBus_success (st : i2cStruct) (env : AcqEnv)
    (hp : acquireBusPoll env.busyPolls = true) :
    (acquireBus_ st env).1 = 1 := by
  unfold acquireBus_
  by_cases h1 : st.C1 &&& I2C_C1_MST ≠ 0 <;> simp [h1, hp]

/-- The immediate-mode transmit loop touches only `currentStatus` and `C1`. -/
theorem sendTransmissionLoop_preserves (polls : Nat → TxPoll) :
    ∀ fuel st idx,
      (sendTransmissionLoop polls fuel st idx).1.currentStop = st.currentStop ∧
      (sendTransmissionLoop polls fuel st idx).1.txBufferLength = st.txBufferLength ∧
      (sendTransmissionLoop polls fuel st idx).1.opMode = st.opMode ∧
      (sendTransmissionLoop polls fuel st idx).1.txBuffer = st.txBuffer := by
  intro fuel
  induction fuel with
  | zero => intro st idx; simp [sendTransmissionLoop]
  | succ n ih =>
    intro st idx
    unfold sendTransmissionLoop
    split
    · split
      · simp
      · split
        · simp
        · simpa using ih st (idx + 1)
    · simp

/-- Entry facts for an immediate-mode `sendTransmission_` run whose bus
acquisition succeeds: the final C1 value follows the stop policy alone, and
the Tx buffer length is unchanged. -/
theorem sendTransmission_imm_facts (st : i2cStruct) (sendStop : i2c_stop)
    (env : AcqEnv) (polls : Nat → TxPoll)
    (hop : st.opMode = I2C_OP_MODE_IMM) (hlen : st.txBufferLength ≠ 0)
    (hacq : (acquireBus_ st env).1 = 1) :
    (sendTransmission_ st sendStop env polls).1.C1 =
      (if sendStop = I2C_STOP then I2C_C1_IICEN
       else I2C_C1_IICEN ||| I2C_C1_MST ||| I2C_C1_TX) ∧
    (sendTransmission_ st sendStop env polls).1.txBufferLength = st.txBufferLength := by
  have hpres := acquireBus_preserves st env
  unfold sendTransmission_
  rw [if_neg hlen]
  simp only [hacq, one_ne_zero, if_false, reduceIte]
  rw [if_pos (Or.inl (by rw [hpres.1, hop]))]
  have hloop := sendTransmissionLoop_preserves polls
    ((acquireBus_ st env).2.2.1.txBufferLength)
    { (acquireBus_ st env).2.2.1 with currentStatus := I2C_SENDING, currentStop := sendStop } 0
  constructor
  · simp only
    rw [hloop.1]
  · simp only
    rw [hloop.2.1, hpres.2.2.1]

-- ------------------------------------------------------------------------
-- C5: already-master acquisition issues a repeated START.
-- ------------------------------------------------------------------------

/-- C5.  If the context already holds bus-master ownership (MST bit set in
C1), `acquireBus_` immediately writes the repeated-START value
IICEN|MST|RSTA|TX and succeeds — for every environment, so neither the
bus-busy polls nor any timeout is consulted.  Consequently a Master Transmit
issued right after an immediate-mode `NoStop` transmit finds the master bit
still set and begins with the repeated-START control write (second event of
its trace), not a fresh START. -/
theorem acquireBus_repeated_start :
    (∀ (st : i2cStruct) (env : AcqEnv), st.C1 &&& I2C_C1_MST ≠ 0 →
      (acquireBus_ st env).1 = 1 ∧
      (acquireBus_ st env).2.2.2 =
        [Event.writeC1 (I2C_C1_IICEN ||| I2C_C1_MST ||| I2C_C1_RSTA ||| I2C_C1_TX)] ∧
      (acquireBus_ st env).2.2.1 =
        { st with C1 := I2C_C1_IICEN ||| I2C_C1_MST ||| I2C_C1_RSTA ||| I2C_C1_TX }) ∧
    (∀ (st : i2cStruct) (env env2 : AcqEnv) (polls polls2 : Nat → TxPoll)
       (stop2 : i2c_stop),
      st.opMode = I2C_OP_MODE_IMM → st.txBufferLength ≠ 0 →
      acquireBusPoll env.busyPolls = true →
      (sendTransmission_ st I2C_NOSTOP env polls).1.C1 &&& I2C_C1_MST ≠ 0 ∧
      (sendTransmission_ (sendTransmission_ st I2C_NOSTOP env polls).1
          stop2 env2 polls2).2.take 2 =
        [Event.writeS (I2C_S_IICIF ||| I2C_S_ARBL),
         Event.writeC1 (I2C_C1_IICEN ||| I2C_C1_MST ||| I2C_C1_RSTA ||| I2C_C1_TX)]) := by
  have hbase : ∀ (st : i2cStruct) (env : AcqEnv), st.C1 &&& I2C_C1_MST ≠ 0 →
      (acquireBus_ st env).1 = 1 ∧
      (acquireBus_ st env).2.2.2 =
        [Event.writeC1 (I2C_C1_IICEN ||| I2C_C1_MST ||| I2C_C1_RSTA ||| I2C_C1_TX)] ∧
      (acquireBus_ st env).2.2.1 =
        { st with C1 := I2C_C1_IICEN ||| I2C_C1_MST ||| I2C_C1_RSTA ||| I2C_C1_TX } := by
    intro st env h
    unfold acquireBus_
    rw [if_pos h]
    exact ⟨rfl, rfl, rfl⟩
  refine ⟨hbase, ?_⟩
  intro st env env2 polls polls2 stop2 hop hlen hp
  have hfacts := sendTransmission_imm_facts st I2C_NOSTOP env polls hop hlen
    (acquireBus_success st env hp)
  have hC1 : (sendTransmission_ st I2C_NOSTOP env polls).1.C1 =
      I2C_C1_IICEN ||| I2C_C1_MST ||| I2C_C1_TX := by
    rw [hfacts.1]; rfl
  have hmst : (sendTransmission_ st I2C_NOSTOP env polls).1.C1 &&& I2C_C1_MST ≠ 0 := by
    rw [hC1]; decide
  refine ⟨hmst, ?_⟩
  have hlen2 : (sendTransmission_ st I2C_NOSTOP env polls).1.txBufferLength ≠ 0 := by
    rw [hfacts.2]; exact hlen
  generalize hg : (sendTransmission_ st I2C_NOSTOP env polls).1 = stA at hlen2 ⊢
  have hacq2 := hbase stA env2 (by rw [← hg]; exact hmst)
  unfold sendTransmission_
  rw [if_neg hlen2]
  simp only [hacq2.1, one_ne_zero, if_false, reduceIte]
  rw [hacq2.2.1]
  split <;> rfl

/-- Witness for C5: repeated START from an already-master context, and the
composition of a `NoStop` transmit followed by a second transmit. -/
theorem acquireBus_repeated_start_witness :
    (acquireBus_ { baseState with C1 := 0xB0 } envIdle).1 = 1 ∧
    (acquireBus_ { baseState with C1 := 0xB0 } envIdle).2.2.2 =
      [Event.writeC1 (I2C_C1_IICEN ||| I2C_C1_MST ||| I2C_C1_RSTA ||| I2C_C1_TX)] ∧
    (sendTransmission_
        (sendTransmission_ { baseState with txBufferLength := 2 } I2C_NOSTOP envIdle
          (fun _ => { timeOk := true, arbl := false, rxak := false })).1
        I2C_STOP envIdle
        (fun _ => { timeOk := true, arbl := false, rxak := false })).2.take 2 =
      [Event.writeS (I2C_S_IICIF ||| I2C_S_ARBL),
       Event.writeC1 (I2C_C1_IICEN ||| I2C_C1_MST ||| I2C_C1_RSTA ||| I2C_C1_TX)] := by
  have h1 := acquireBus_repeated_start.1 { baseState with C1 := 0xB0 } envIdle (by decide)
  have h2 := acquireBus_repeated_start.2 { baseState with txBufferLength := 2 }
    envIdle envIdle (fun _ => { timeOk := true, arbl := false, rxak := false })
    (fun _ => { timeOk := true, arbl := false, rxak := false }) I2C_STOP
    rfl (by decide) (by decide)
  exact ⟨h1.1, h1.2.1, h2.2⟩

-- ------------------------------------------------------------------------
-- C2: STOP is forced on every NAK path.
-- ------------------------------------------------------------------------

/-- If the immediate-mode transmit loop reaches a byte slot `k` that the peer
NAKs (having acknowledged all earlier slots, with time remaining through
slot `k`), the event trace of the loop contains the STOP control write
(C1 := IICEN only). -/
theorem sendTransmissionLoop_nak_mem (polls : Nat → TxPoll) (k : Nat) :
    ∀ fuel (st : i2cStruct) (idx : Nat), idx ≤ k → k < st.txBufferLength →
      st.txBufferLength ≤ idx + fuel →
      (∀ i, idx ≤ i → i ≤ k → (polls i).timeOk = true) →
      (∀ i, idx ≤ i → i < k → (polls i).arbl = false ∧ (polls i).rxak = false) →
      (polls k).arbl = false → (polls k).rxak = true →
      Event.writeC1 I2C_C1_IICEN ∈ (sendTransmissionLoop polls fuel st idx).2.1 := by
  intro fuel
  induction fuel with
  | zero => intro st idx h1 h2 h3 _ _ _ _; omega
  | succ n ih =>
    intro st idx h1 h2 h3 htime hclean harbl hnak
    unfold sendTransmissionLoop
    rw [if_pos ⟨by omega, htime idx le_rfl h1⟩]
    rcases Nat.eq_or_lt_of_le h1 with heq | hlt
    · subst heq
      rw [if_neg (by simp [harbl]), if_pos hnak]
      simp
    · have hc := hclean idx le_rfl hlt
      rw [if_neg (by simp [hc.1]), if_neg (by simp [hc.2])]
      have := ih st (idx + 1) hlt h2 (by omega)
        (fun i hi1 hi2 => htime i (by omega) hi2)
        (fun i hi1 hi2 => hclean i (by omega) hi2) harbl hnak
      simp only [List.mem_append]
      right
      simpa using this

/-- C2.  Whenever a NAK terminates a Master Transmit or Master Receive, the
control register is written to the I2C-enable-only value (IICEN, clearing
MST: a STOP that releases the bus), regardless of the requested stop policy
(no hypothesis below constrains `currentStop`/`sendStop`): (1) interrupt
path of Master Transmit, (2) interrupt path of the Master Receive address
phase, (3) immediate path of Master Transmit (the STOP write appears in the
trace of any run whose byte `k` is NAKed), (4) immediate path of the Master
Receive address phase. -/
theorem stop_forced_on_nak :
    (∀ (st : i2cStruct) (status : Nat) (dc de : Bool) (d : Nat),
      st.C1 &&& I2C_C1_MST ≠ 0 → st.C1 &&& I2C_C1_TX ≠ 0 →
      st.activeDMA ≠ I2C_DMA_BULK → st.activeDMA ≠ I2C_DMA_LAST →
      st.currentStatus = I2C_SENDING →
      status &&& I2C_S_ARBL = 0 → status &&& I2C_S_RXAK ≠ 0 →
      (i2c_isr_handler st status dc de d).1.C1 = I2C_C1_IICEN ∧
      (i2c_isr_handler st status dc de d).2 =
        [Event.writeC1 I2C_C1_IICEN, Event.writeS I2C_S_IICIF]) ∧
    (∀ (st : i2cStruct) (status : Nat) (dc de : Bool) (d : Nat),
      st.C1 &&& I2C_C1_MST ≠ 0 → st.C1 &&& I2C_C1_TX ≠ 0 →
      st.activeDMA ≠ I2C_DMA_BULK → st.activeDMA ≠ I2C_DMA_LAST →
      st.currentStatus = I2C_SEND_ADDR →
      status &&& I2C_S_ARBL = 0 → status &&& I2C_S_RXAK ≠ 0 →
      (i2c_isr_handler st status dc de d).1.C1 = I2C_C1_IICEN ∧
      (i2c_isr_handler st status dc de d).1.currentStatus = I2C_ADDR_NAK ∧
      (i2c_isr_handler st status dc de d).2 =
        [Event.writeC1 I2C_C1_IICEN, Event.writeS I2C_S_IICIF]) ∧
    (∀ (st : i2cStruct) (sendStop : i2c_stop) (env : AcqEnv) (polls : Nat → TxPoll)
       (k : Nat),
      st.opMode = I2C_OP_MODE_IMM → st.txBufferLength ≠ 0 →
      acquireBusPoll env.busyPolls = true →
      k < st.txBufferLength →
      (∀ i, i ≤ k → (polls i).timeOk = true) →
      (∀ i, i < k → (polls i).arbl = false ∧ (polls i).rxak = false) →
      (polls k).arbl = false → (polls k).rxak = true →
      Event.writeC1 I2C_C1_IICEN ∈ (sendTransmission_ st sendStop env polls).2) ∧
    (∀ (st : i2cStruct) (addr len : Nat) (sendStop : i2c_stop) (env : AcqEnv)
       (ap : AddrPoll) (polls : Nat → Bool × Nat),
      len ≠ 0 → ¬ len > I2C_RX_BUFFER_LENGTH →
      st.opMode = I2C_OP_MODE_IMM →
      acquireBusPoll env.busyPolls = true →
      ap.arbl = false → ap.rxak = true →
      (sendRequest_ st addr len sendStop env ap polls).1.currentStatus = I2C_ADDR_NAK ∧
      (sendRequest_ st addr len sendStop env ap polls).1.C1 = I2C_C1_IICEN ∧
      Event.writeC1 I2C_C1_IICEN ∈ (sendRequest_ st addr len sendStop env ap polls).2) := by
  refine ⟨?_, ?_, ?_, ?_⟩
  · intro st status dc de d hmst htx hd1 hd2 hs harbl hrxak
    unfold i2c_isr_handler
    simp [hmst, htx, hd1, hd2, hs, harbl, hrxak]
  · intro st status dc de d hmst htx hd1 hd2 hs harbl hrxak
    unfold i2c_isr_handler
    simp [hmst, htx, hd1, hd2, hs, harbl, hrxak]
  · intro st sendStop env polls k hop hlen hp hk htime hclean harbl hnak
    have hpres := acquireBus_preserves st env
    have hacq := acquireBus_success st env hp
    unfold sendTransmission_
    rw [if_neg hlen]
    simp only [hacq, one_ne_zero, if_false, reduceIte]
    rw [if_pos (Or.inl (by rw [hpres.1, hop]))]
    refine List.mem_append.mpr (Or.inl (List.mem_append.mpr (Or.inr
      (sendTransmissionLoop_nak_mem polls k _ _ 0 (Nat.zero_le k) ?_ ?_
        (fun i _ hi => htime i hi) (fun i _ hi => hclean i hi) harbl hnak))))
    · show k < (acquireBus_ st env).2.2.1.txBufferLength
      rw [hpres.2.2.1]; exact hk
    · show (acquireBus_ st env).2.2.1.txBufferLength ≤
        0 + (acquireBus_ st env).2.2.1.txBufferLength
      omega
  · intro st addr len sendStop env ap polls hlen0 hbig hop hp harbl hnak
    have hpres := acquireBus_preserves
      { st with reqCount := len, rxBufferIndex := 0, rxBufferLength := 0 } env
    have hacq := acquireBus_success
      { st with reqCount := len, rxBufferIndex := 0, rxBufferLength := 0 } env hp
    unfold sendRequest_
    rw [if_neg hlen0, if_neg hbig]
    simp only [hacq, one_ne_zero, if_false, reduceIte]
    rw [if_pos (Or.inl (by rw [hpres.1]; exact hop))]
    rw [if_neg (by simp [harbl]), if_pos hnak]
    refine ⟨rfl, rfl, ?_⟩
    simp

/-- Witness for C2: each of the four NAK paths at a concrete `NoStop`
request still produces the STOP control write. -/
theorem stop_forced_on_nak_witness :
    (i2c_isr_handler { stSending 3 1 with currentStop := I2C_NOSTOP }
        0x03 false false 0).1.C1 = I2C_C1_IICEN ∧
    (i2c_isr_handler { stSendAddr 2 with currentStop := I2C_NOSTOP }
        0x03 false false 0).1.C1 = I2C_C1_IICEN ∧
    Event.writeC1 I2C_C1_IICEN ∈
      (sendTransmission_ { baseState with txBufferLength := 2 } I2C_NOSTOP envIdle
        (fun _ => { timeOk := true, arbl := false, rxak := true })).2 ∧
    (sendRequest_ baseState 0x44 1 I2C_NOSTOP envIdle { arbl := false, rxak := true }
        (fun _ => (false, 0))).1.C1 = I2C_C1_IICEN := by
  have h1 := stop_forced_on_nak.1 { stSending 3 1 with currentStop := I2C_NOSTOP }
    0x03 false false 0 (by decide) (by decide) (by decide) (by decide) rfl
    (by decide) (by decide)
  have h2 := stop_forced_on_nak.2.1 { stSendAddr 2 with currentStop := I2C_NOSTOP }
    0x03 false false 0 (by decide) (by decide) (by decide) (by decide) rfl
    (by decide) (by decide)
  have h3 := stop_forced_on_nak.2.2.1 { baseState with txBufferLength := 2 }
    I2C_NOSTOP envIdle (fun _ => { timeOk := true, arbl := false, rxak := true }) 0
    rfl (by decide) (by decide) (by decide) (by decide) (by decide) rfl rfl
  have h4 := stop_forced_on_nak.2.2.2 baseState 0x44 1 I2C_NOSTOP envIdle
    { arbl := false, rxak := true } (fun _ => (false, 0))
    (by decide) (by decide) rfl (by decide) rfl rfl
  exact ⟨h1.1, h2.1, h3, h4.2.1⟩

-- ------------------------------------------------------------------------
-- C3: single-byte Master Receive configures NAK before the dummy read.
-- ------------------------------------------------------------------------

/-- Dropping a read-free prefix only changes the accumulator of
`lastC1BeforeFirstReadD`. -/
theorem lastC1_append_no_read :
    ∀ (l1 : List Event), Event.readD ∉ l1 → ∀ (l2 : List Event) (acc : Option Nat),
      ∃ a, lastC1BeforeFirstReadD (l1 ++ l2) acc = lastC1BeforeFirstReadD l2 a := by
  intro l1
  induction l1 with
  | nil => intro _ l2 acc; exact ⟨acc, rfl⟩
  | cons e t ih =>
    intro h l2 acc
    have he : e ≠ Event.readD := fun hc => h (hc ▸ List.mem_cons_self e t)
    have ht : Event.readD ∉ t := fun hc => h (List.mem_cons_of_mem e hc)
    cases e with
    | writeC1 v => exact ih ht l2 (some v)
    | readD => exact absurd rfl he
    | writeS v => exact ih ht l2 acc
    | writeD v => exact ih ht l2 acc
    | pinModeEv p m => exact ih ht l2 acc
    | digitalWriteEv p b => exact ih ht l2 acc
    | pinConfigureI2C p u => exact ih ht l2 acc

/-- The SCL toggle loop performs no data-register read. -/
theorem readD_not_in_resetBusLoop (scl : Nat) (sdaRead : Nat → Bool) :
    ∀ fuel count, Event.readD ∉ (resetBusLoop scl sdaRead fuel count).2 := by
  intro fuel
  induction fuel with
  | zero => intro count; simp [resetBusLoop]
  | succ n ih =>
    intro count
    unfold resetBusLoop
    split
    · simpa using ih (count + 1)
    · simp

/-- `resetBus_` performs no data-register read. -/
theorem readD_not_in_resetBus (st : i2cStruct) (sdaRead : Nat → Bool) :
    Event.readD ∉ (resetBus_ st sdaRead).2.1 := by
  have hg := resetBus_guard st.currentPins
  simp [resetBus_, hg, readD_not_in_resetBusLoop]

/-- `acquireBus_` performs no data-register read. -/
theorem readD_not_in_acquireBus (st : i2cStruct) (env : AcqEnv) :
    Event.readD ∉ (acquireBus_ st env).2.2.2 := by
  unfold acquireBus_
  by_cases h1 : st.C1 &&& I2C_C1_MST ≠ 0
  · simp [h1]
  · by_cases h2 : acquireBusPoll env.busyPolls = true
    · simp [h1, h2]
    · by_cases h3 : env.busyAfterReset = false
      · simp [h1, h2, h3, readD_not_in_resetBus]
      · simp [h1, h2, h3, readD_not_in_resetBus]

/-- Value tracked by `lastC1BeforeFirstReadD` over the event shape produced
by the immediate-mode Master Receive entry: status-clear write, a read-free
acquisition trace, address write and wait, then the receive-configure write
immediately followed by the dummy read. -/
theorem lastC1_shape (w1 : Nat) (evA : List Event) (hA : Event.readD ∉ evA)
    (d2 w3 v : Nat) (loop : List Event) :
    lastC1BeforeFirstReadD
      ([Event.writeS w1] ++ evA ++ [Event.writeD d2, Event.writeS w3] ++
        [Event.writeC1 v, Event.readD] ++ loop) none = some v := by
  simp only [List.append_assoc]
  show lastC1BeforeFirstReadD
    (evA ++ ([Event.writeD d2, Event.writeS w3] ++
      ([Event.writeC1 v, Event.readD] ++ loop))) none = some v
  obtain ⟨a, ha⟩ := lastC1_append_no_read evA hA
    ([Event.writeD d2, Event.writeS w3] ++ ([Event.writeC1 v, Event.readD] ++ loop)) none
  rw [ha]
  rfl

/-- C3.  After the address of a Master Receive is acknowledged, the first
control-register configuration precedes the dummy data-register read, and for
a 1-byte request it sets TXAK (NAK the next received byte) — so an ACK is
never sent for a single-byte request — while for requests of 2 or more bytes
it leaves TXAK clear (ACK enabled); this holds in the plain interrupt path,
in its DMA decision branch (entered only for requests of 5 or more bytes),
and in the immediate path. -/
theorem single_byte_receive_nak_first :
    (∀ (st : i2cStruct) (status : Nat) (dc de : Bool) (d : Nat),
      st.C1 &&& I2C_C1_MST ≠ 0 → st.C1 &&& I2C_C1_TX ≠ 0 →
      st.activeDMA = I2C_DMA_OFF → st.currentStatus = I2C_SEND_ADDR →
      status &&& I2C_S_ARBL = 0 → status &&& I2C_S_RXAK = 0 →
      st.reqCount = 1 →
      (i2c_isr_handler st status dc de d).2 =
        [Event.writeC1 (I2C_C1_IICEN ||| I2C_C1_IICIE ||| I2C_C1_MST ||| I2C_C1_TXAK),
         Event.readD, Event.writeS I2C_S_IICIF] ∧
      lastC1BeforeFirstReadD (i2c_isr_handler st status dc de d).2 none =
        some (I2C_C1_IICEN ||| I2C_C1_IICIE ||| I2C_C1_MST ||| I2C_C1_TXAK) ∧
      (I2C_C1_IICEN ||| I2C_C1_IICIE ||| I2C_C1_MST ||| I2C_C1_TXAK) &&& I2C_C1_TXAK ≠ 0) ∧
    (∀ (st : i2cStruct) (status : Nat) (dc de : Bool) (d : Nat),
      st.C1 &&& I2C_C1_MST ≠ 0 → st.C1 &&& I2C_C1_TX ≠ 0 →
      st.activeDMA = I2C_DMA_OFF → st.currentStatus = I2C_SEND_ADDR →
      status &&& I2C_S_ARBL = 0 → status &&& I2C_S_RXAK = 0 →
      2 ≤ st.reqCount →
      lastC1BeforeFirstReadD (i2c_isr_handler st status dc de d).2 none =
        some (I2C_C1_IICEN ||| I2C_C1_IICIE ||| I2C_C1_MST) ∧
      (I2C_C1_IICEN ||| I2C_C1_IICIE ||| I2C_C1_MST) &&& I2C_C1_TXAK = 0) ∧
    (∀ (st : i2cStruct) (status : Nat) (dc de : Bool) (d : Nat),
      st.C1 &&& I2C_C1_MST ≠ 0 → st.C1 &&& I2C_C1_TX ≠ 0 →
      st.activeDMA = I2C_DMA_ADDR → st.currentStatus = I2C_SEND_ADDR →
      status &&& I2C_S_ARBL = 0 → status &&& I2C_S_RXAK = 0 →
      lastC1BeforeFirstReadD (i2c_isr_handler st status dc de d).2 none =
        some (I2C_C1_IICEN ||| I2C_C1_IICIE ||| I2C_C1_MST ||| I2C_C1_DMAEN) ∧
      (I2C_C1_IICEN ||| I2C_C1_IICIE ||| I2C_C1_MST ||| I2C_C1_DMAEN) &&& I2C_C1_TXAK = 0) ∧
    (∀ (st : i2cStruct) (addr len : Nat) (sendStop : i2c_stop) (env : AcqEnv)
       (ap : AddrPoll) (polls : Nat → Bool × Nat),
      len ≠ 0 → ¬ len > I2C_RX_BUFFER_LENGTH →
      st.opMode = I2C_OP_MODE_IMM → acquireBusPoll env.busyPolls = true →
      ap.arbl = false → ap.rxak = false →
      lastC1BeforeFirstReadD (sendRequest_ st addr len sendStop env ap polls).2 none =
        some (if len = 1 then I2C_C1_IICEN ||| I2C_C1_MST ||| I2C_C1_TXAK
              else I2C_C1_IICEN ||| I2C_C1_MST) ∧
      (I2C_C1_IICEN ||| I2C_C1_MST ||| I2C_C1_TXAK) &&& I2C_C1_TXAK ≠ 0 ∧
      (I2C_C1_IICEN ||| I2C_C1_MST) &&& I2C_C1_TXAK = 0) := by
  refine ⟨?_, ?_, ?_, ?_⟩
  · intro st status dc de d hmst htx hdma hs harbl hrxak hreq
    unfold i2c_isr_handler
    simp [hmst, htx, hdma, hs, harbl, hrxak, hreq, lastC1BeforeFirstReadD]
    decide
  · intro st status dc de d hmst htx hdma hs harbl hrxak hreq
    have hne : st.reqCount ≠ 1 := by omega
    unfold i2c_isr_handler
    simp [hmst, htx, hdma, hs, harbl, hrxak, hne, lastC1BeforeFirstReadD]
    decide
  · intro st status dc de d hmst htx hdma hs harbl hrxak
    unfold i2c_isr_handler
    simp [hmst, htx, hdma, hs, harbl, hrxak, lastC1BeforeFirstReadD]
    decide
  · intro st addr len sendStop env ap polls hlen0 hbig hop hp harbl hrxak
    have hpres := acquireBus_preserves
      { st with reqCount := len, rxBufferIndex := 0, rxBufferLength := 0 } env
    have hacq := acquireBus_success
      { st with reqCount := len, rxBufferIndex := 0, rxBufferLength := 0 } env hp
    refine ⟨?_, by decide, by decide⟩
    unfold sendRequest_
    rw [if_neg hlen0, if_neg hbig]
    simp only [hacq, one_ne_zero, if_false, reduceIte]
    rw [if_pos (Or.inl (by rw [hpres.1]; exact hop))]
    rw [if_neg (by simp [harbl]), if_neg (by simp [hrxak])]
    dsimp only
    rw [hpres.2.2.2.2.1]
    exact lastC1_shape _ _ (readD_not_in_acquireBus _ _) _ _ _ _

/-- Witness for C3 at concrete 1-byte and 2-byte requests. -/
theorem single_byte_receive_nak_first_witness :
    lastC1BeforeFirstReadD (i2c_isr_handler (stSendAddr 1) 0x02 false false 0).2 none =
      some (I2C_C1_IICEN ||| I2C_C1_IICIE ||| I2C_C1_MST ||| I2C_C1_TXAK) ∧
    lastC1BeforeFirstReadD (i2c_isr_handler (stSendAddr 2) 0x02 false false 0).2 none =
      some (I2C_C1_IICEN ||| I2C_C1_IICIE ||| I2C_C1_MST) ∧
    lastC1BeforeFirstReadD (sendRequest_ baseState 0x44 1 I2C_STOP envIdle
        { arbl := false, rxak := false } (fun _ => (false, 0x5A))).2 none =
      some (I2C_C1_IICEN ||| I2C_C1_MST ||| I2C_C1_TXAK) := by
  have h1 := (single_byte_receive_nak_first.1 (stSendAddr 1) 0x02 false false 0
    (by decide) (by decide) rfl rfl (by decide) (by decide) rfl).2.1
  have h2 := (single_byte_receive_nak_first.2.1 (stSendAddr 2) 0x02 false false 0
    (by decide) (by decide) rfl rfl (by decide) (by decide) (by decide)).1
  have h3 := (single_byte_receive_nak_first.2.2.2 baseState 0x44 1 I2C_STOP envIdle
    { arbl := false, rxak := false } (fun _ => (false, 0x5A))
    (by decide) (by decide) rfl (by decide) rfl rfl).1
  exact ⟨h1, h2, by simpa using h3⟩
